import Mathlib

/-!
# Verification of the AnomalyWatchers fraud-detection service

Shallow embedding of the core of `backend/app/main.py` (heuristic rule
engine, ensemble decision engine, primary and secondary prediction
endpoints) and of the feature transform of `scripts/train_models.py`.

Python floats are modelled as rationals (`ℚ`); all comparisons in the
embedded code are exact threshold comparisons, so this is faithful for the
properties proved here.  The trained model artifacts are opaque data: they
are modelled as function parameters (`ml_model`) or as explicit outputs
(`pred`, `prob`) exactly where the source calls `predict_proba` / `predict`.
-/

namespace FraudSim

/-- Severity of a risk factor: one of `"info"`, `"warning"`, `"danger"`
(`Literal` type in `backend/app/schemas.py`). -/
abbrev Severity := String

/-- `RiskFactor` from `backend/app/schemas.py`: a human-readable description
plus a severity level. -/
structure RiskFactor where
  factor : String
  severity : Severity
deriving DecidableEq, Repr

/-- `TransactionInput` from `backend/app/schemas.py` (Paysim schema).
Schema constraints: `step ≥ 1`, `amount ≥ 0`, `oldbalanceOrg ≥ 0`,
`oldbalanceDest ≥ 0`, `newbalanceDest ≥ 0`; `newbalanceOrig` is any real. -/
structure TransactionInput where
  step : Int := 1
  type : String
  amount : ℚ
  oldbalanceOrg : ℚ
  newbalanceOrig : ℚ
  oldbalanceDest : ℚ := 0
  newbalanceDest : ℚ := 0
deriving DecidableEq, Repr

/-- `PredictionOutput` from `backend/app/schemas.py`. -/
structure PredictionOutput where
  probability : ℚ
  is_fraud : Bool
  risk_level : String
  explanation : String
  risk_factors : List RiskFactor
deriving DecidableEq, Repr

/-! ## Constants (`backend/app/main.py`, lines 49-64) -/

/-- `FEATURE_COLUMNS` of `backend/app/main.py`. -/
def FEATURE_COLUMNS : List String :=
  ["type", "amount", "oldbalanceOrg", "newbalanceOrig",
   "errorBalanceOrg", "errorBalanceDest"]

/-- `HIGH_RISK_THRESHOLD = 0.8`. -/
def HIGH_RISK_THRESHOLD : ℚ := 0.8

/-- `MEDIUM_RISK_THRESHOLD = 0.4`. -/
def MEDIUM_RISK_THRESHOLD : ℚ := 0.4

/-- `HIGH_VALUE_AMOUNT = 150_000.0`. -/
def HIGH_VALUE_AMOUNT : ℚ := 150000

/-- `BALANCE_ERROR_EPSILON = 0.01`. -/
def BALANCE_ERROR_EPSILON : ℚ := 0.01

/-! ## Numeric string formatting

The source renders numbers into factor strings with Python format specs
(`{x:,.2f}`, `{x:.1%}`, …).  These helpers model that rendering: round to
the requested number of decimals and optionally comma-group the integer
part.  (Tie-breaking of the final decimal digit is a binary-float detail
of CPython with no bearing on any property proved below.) -/

/-- Insert a comma every three digits, counting from the right
(`1234567` ↦ `1,234,567`), as Python's `,` format flag does. -/
def commaGroup (s : String) : String :=
  String.mk (go s.toList.reverse).reverse
where
  go : List Char → List Char
    | a :: b :: c :: d :: rest => a :: b :: c :: ',' :: go (d :: rest)
    | l => l

/-- Left-pad a string with `'0'` to the given length. -/
def zeroPad (len : Nat) (s : String) : String :=
  String.mk (List.replicate (len - s.length) '0') ++ s

/-- Model of Python's fixed-point format `:.Nf` (with optional `,` flag):
round `x` to `decimals` decimal places and render it. -/
def fmtFixed (comma : Bool) (decimals : Nat) (x : ℚ) : String :=
  let n : Nat := (round (|x| * (10 : ℚ) ^ decimals)).toNat
  let ipart := toString (n / 10 ^ decimals)
  let ip := if comma then commaGroup ipart else ipart
  let fp := if decimals = 0 then ""
            else "." ++ zeroPad decimals (toString (n % 10 ^ decimals))
  (if x < 0 then "-" else "") ++ ip ++ fp

/-- Model of Python's percentage format `:.1%`. -/
def fmtPct1 (x : ℚ) : String := fmtFixed false 1 (x * 100) ++ "%"

/-! ## Heuristic Rule Engine (`_compute_heuristics`, main.py lines 137-212)

The source initialises `h_prob = 0.0` and an empty factor list, then runs
all five `if` blocks in order, each taking `h_prob = max(h_prob, floor)`
and appending its factor; rule 5 appends a factor without touching
`h_prob`. -/

/-- The factor appended by rule 1 (forced overdraft). -/
def r1Factor : RiskFactor :=
  ⟨"Illegal Overdraft: Sender balance went negative, indicating a forced withdrawal",
   "danger"⟩

/-- The factor appended by rule 2 (complete balance drain). -/
def r2Factor (data : TransactionInput) : RiskFactor :=
  ⟨"Balance Drain: Full account emptied (" ++ fmtFixed true 2 data.oldbalanceOrg
    ++ " → 0)", "danger"⟩

/-- The factor appended by rule 3 (balance-error anomaly). -/
def r3Factor (error_balance_org : ℚ) : RiskFactor :=
  ⟨"Balance Discrepancy: Error of " ++ fmtFixed true 2 error_balance_org
    ++ " detected (expected ≈ 0)", "warning"⟩

/-- The factor appended by rule 4 (high-value transaction). -/
def r4Factor (data : TransactionInput) : RiskFactor :=
  ⟨"High Amount: " ++ fmtFixed true 2 data.amount ++ " exceeds "
    ++ fmtFixed true 0 HIGH_VALUE_AMOUNT ++ " threshold", "warning"⟩

/-- The factor appended by rule 5 (amount-to-balance ratio). -/
def r5Factor (ratio : ℚ) : RiskFactor :=
  ⟨"High Amount-to-Balance Ratio: " ++ fmtPct1 ratio
    ++ " of available balance", "warning"⟩

/-- `_compute_heuristics(data, error_balance_org)` of `backend/app/main.py`:
rule-based fraud heuristics.  Returns `(h_prob, factors)`. -/
def compute_heuristics (data : TransactionInput) (error_balance_org : ℚ) :
    ℚ × List RiskFactor :=
  let h_prob : ℚ := 0.0
  let factors : List RiskFactor := []
  -- Rule 1: Forced overdraft — newbalanceOrig should never be negative
  let h_prob :=
    if data.newbalanceOrig < 0 then max h_prob 0.99 else h_prob
  let factors :=
    if data.newbalanceOrig < 0 then factors ++ [r1Factor] else factors
  -- Rule 2: Complete balance drain
  let h_prob :=
    if data.newbalanceOrig = 0 ∧ data.amount > 0 ∧
        data.amount ≥ data.oldbalanceOrg then max h_prob 0.95 else h_prob
  let factors :=
    if data.newbalanceOrig = 0 ∧ data.amount > 0 ∧
        data.amount ≥ data.oldbalanceOrg then factors ++ [r2Factor data]
    else factors
  -- Rule 3: Balance-error anomaly (math inconsistency)
  let h_prob :=
    if |error_balance_org| > BALANCE_ERROR_EPSILON then max h_prob 0.85
    else h_prob
  let factors :=
    if |error_balance_org| > BALANCE_ERROR_EPSILON then
      factors ++ [r3Factor error_balance_org]
    else factors
  -- Rule 4: High-value transaction
  let h_prob :=
    if data.amount > HIGH_VALUE_AMOUNT then max h_prob 0.70 else h_prob
  let factors :=
    if data.amount > HIGH_VALUE_AMOUNT then factors ++ [r4Factor data]
    else factors
  -- Rule 5: Amount > old balance ratio (factor only, no probability)
  let factors :=
    if data.oldbalanceOrg > 0 then
      if data.amount / data.oldbalanceOrg > 0.9 then
        factors ++ [r5Factor (data.amount / data.oldbalanceOrg)]
      else factors
    else factors
  (h_prob, factors)

/-! ## Model registry (`_models`, populated by `lifespan`, main.py lines 69-99)

The startup hook loads each artifact whose file exists; the endpoints then
consult the registry by key.  An entry is modelled by whether that key is
present; the encoder artifact is modelled by its lookup behaviour
(`LabelEncoder.transform` returns the fitted code or raises `ValueError`
on an unseen label, modelled as `Option`).  The `logistic` and
`isolation_forest` artifacts are loaded but never read by any endpoint,
so they are omitted here. -/

/-- Which artifacts the registry `_models` holds at request time.
`encoder = none` models `"encoder" ∉ _models` (the artifact file was
missing at startup). -/
structure ModelRegistry where
  primary : Bool
  encoder : Option (String → Option Int)
  secondary_rf : Bool

/-- The `try/except` block of main.py lines 242-246:
`type_encoded = int(_models["encoder"].transform([data.type])[0])`, where
both a `KeyError` (the `"encoder"` key absent from `_models`) and a
`ValueError` (label unseen by the fitted encoder) are caught and replaced
by the default code `0`. -/
def encodeType (models : ModelRegistry) (t : String) : Int :=
  match models.encoder with
  | none => 0
  | some enc => (enc t).getD 0

/-- main.py line 248: `error_balance_org = newbalanceOrig + amount - oldbalanceOrg`. -/
def error_balance_org (data : TransactionInput) : ℚ :=
  data.newbalanceOrig + data.amount - data.oldbalanceOrg

/-- main.py line 249: `error_balance_dest = oldbalanceDest + amount - newbalanceDest`. -/
def error_balance_dest (data : TransactionInput) : ℚ :=
  data.oldbalanceDest + data.amount - data.newbalanceDest

/-- The single-row dict literal of main.py lines 251-261, in its insertion
order (the integer `type` code is widened to the numeric column type). -/
def featureAssoc (type_encoded : Int) (data : TransactionInput) :
    List (String × ℚ) :=
  [("type", (type_encoded : ℚ)),
   ("amount", data.amount),
   ("oldbalanceOrg", data.oldbalanceOrg),
   ("newbalanceOrig", data.newbalanceOrig),
   ("errorBalanceOrg", error_balance_org data),
   ("errorBalanceDest", error_balance_dest data)]

/-- The feature row after the `[FEATURE_COLUMNS]` reindex of main.py
line 262: column values selected in `FEATURE_COLUMNS` order. -/
def features (type_encoded : Int) (data : TransactionInput) : List ℚ :=
  FEATURE_COLUMNS.filterMap fun c => (featureAssoc type_encoded data).lookup c

/-- The synthetic model factor inserted at position 0 when `ml_prob > 0.5`
(main.py lines 273-280). -/
def mlFactor (ml_prob : ℚ) : RiskFactor :=
  ⟨"AI Model: XGBoost detected suspicious pattern (confidence: "
    ++ fmtPct1 ml_prob ++ ")",
   if ml_prob > 0.8 then "danger" else "warning"⟩

/-- The default factor appended when the verdict is legitimate and no
factor was produced (main.py lines 300-306). -/
def allChecksPassedFactor : RiskFactor :=
  ⟨"All checks passed — no anomalies detected", "info"⟩

/-- The risk-level `if/elif/else` chain on the two threshold constants.
The source duplicates this chain verbatim in both endpoints
(main.py lines 287-292 and 390-395). -/
def risk_level_of (p : ℚ) : String :=
  if p > HIGH_RISK_THRESHOLD then "High"
  else if p > MEDIUM_RISK_THRESHOLD then "Medium"
  else "Low"

/-! ## Primary prediction endpoint (`predict_primary`, main.py lines 219-324)

The XGBoost artifact is opaque data; its `predict_proba(features)[0][1]`
call is modelled by applying a function parameter `ml_model` to the
assembled feature row, exactly where the source reads the artifact. -/

/-- Local `ml_prob` of main.py line 267:
`float(_models["primary"].predict_proba(features.values)[0][1])`. -/
def ml_prob (models : ModelRegistry) (ml_model : List ℚ → ℚ)
    (data : TransactionInput) : ℚ :=
  ml_model (features (encodeType models data.type) data)

/-- Local `h_prob` of main.py line 270 (first component of the
heuristic overlay). -/
def h_prob (data : TransactionInput) : ℚ :=
  (compute_heuristics data (error_balance_org data)).1

/-- Local `risk_factors` of main.py line 270 (second component of the
heuristic overlay). -/
def heuristic_factors (data : TransactionInput) : List RiskFactor :=
  (compute_heuristics data (error_balance_org data)).2

/-- `risk_factors` after the `insert(0, ...)` of main.py lines 273-280:
the synthetic model factor is prepended when `ml_prob > 0.5`. -/
def assembled_factors (models : ModelRegistry) (ml_model : List ℚ → ℚ)
    (data : TransactionInput) : List RiskFactor :=
  if ml_prob models ml_model data > 0.5 then
    mlFactor (ml_prob models ml_model data) :: heuristic_factors data
  else heuristic_factors data

/-- Local `final_prob` of main.py line 283:
`max(ml_prob, h_prob)` (ensemble fusion). -/
def final_prob (models : ModelRegistry) (ml_model : List ℚ → ℚ)
    (data : TransactionInput) : ℚ :=
  max (ml_prob models ml_model data) (h_prob data)

/-- The `PredictionOutput` built by main.py lines 283-324 once the model
guard has passed: verdict at the 0.5 threshold, risk tier, explanation
assembly, default factor insertion. -/
def primary_result (models : ModelRegistry) (ml_model : List ℚ → ℚ)
    (data : TransactionInput) : PredictionOutput :=
  let fp := final_prob models ml_model data
  let is_fraud : Bool := decide (fp > 0.5)
  let fs := assembled_factors models ml_model data
  { probability := fp
    is_fraud := is_fraud
    risk_level := risk_level_of fp
    explanation :=
      if is_fraud then
        "Risk Factors: "
          ++ String.intercalate "; " ((fs.take 3).map RiskFactor.factor) ++ "."
      else "Transaction parameters are consistent with legitimate behavior."
    risk_factors :=
      if is_fraud then fs
      else if fs.isEmpty then fs ++ [allChecksPassedFactor] else fs }

/-- `predict_primary(data)`: `503` when the primary model is not loaded
(main.py lines 235-239), otherwise the ensemble decision. -/
def predict_primary (models : ModelRegistry) (ml_model : List ℚ → ℚ)
    (data : TransactionInput) : Except Nat PredictionOutput :=
  if !models.primary then .error 503
  else .ok (primary_result models ml_model data)

/-! ## Secondary prediction endpoint (`predict_secondary`, main.py lines 340-403)

Abstractions: `dist` is the value of `_haversine(long, lat, merch_long,
merch_lat)` (floating-point trigonometry, main.py lines 330-336); `pred`
and `prob` are the random-forest artifact's `predict(features)[0]` and
`predict_proba(features)[0][1]` outputs on the secondary feature row
(`amt`, `dist_to_merch`, `age`, `city_pop`), which feeds only the opaque
model.  Everything from main.py line 353 and lines 378-403 is embedded. -/

/-- `predict_secondary(data)`: `503` when the secondary model is not loaded,
otherwise the raw model probability, the model's own predicted label as the
verdict, the risk-level chain, a fixed distance explanation, and a factor
list holding the distance-anomaly factor exactly when `dist > 100`. -/
def predict_secondary (models : ModelRegistry) (pred : Bool) (prob : ℚ)
    (dist : ℚ) : Except Nat PredictionOutput :=
  if !models.secondary_rf then .error 503 else
  let risk_factors : List RiskFactor :=
    if dist > 100 then
      [⟨"Distance anomaly: " ++ fmtFixed false 1 dist ++ " km from merchant",
        "warning"⟩]
    else []
  let risk_level := risk_level_of prob
  .ok ⟨prob, pred, risk_level,
       "Distance to merchant: " ++ fmtFixed false 2 dist ++ " km",
       risk_factors⟩

/-! ## Training-time feature transform (`scripts/train_models.py`)

`engineer_features` (lines 198-250) filters to the fraud-capable types,
adds the two error-balance columns, label-encodes `type`, and selects
`FEATURE_COLUMNS + [TARGET_COLUMN]`.  The per-row effect on the feature
part is embedded here; the fitted label code of the row's `type` is a
parameter (`LabelEncoder.fit_transform` assigns codes by sorted class
order over the filtered data). -/

namespace train_models

/-- `FEATURE_COLUMNS` of `scripts/train_models.py` (lines 85-92). -/
def FEATURE_COLUMNS : List String :=
  ["type", "amount", "oldbalanceOrg", "newbalanceOrig",
   "errorBalanceOrg", "errorBalanceDest"]

/-- `FRAUD_CAPABLE_TYPES = ["CASH_OUT", "TRANSFER"]` (line 96). -/
def FRAUD_CAPABLE_TYPES : List String := ["CASH_OUT", "TRANSFER"]

/-- One raw Paysim row as `engineer_features` sees it. -/
structure RawRow where
  type : String
  amount : ℚ
  oldbalanceOrg : ℚ
  newbalanceOrig : ℚ
  oldbalanceDest : ℚ
  newbalanceDest : ℚ
deriving DecidableEq, Repr

/-- The engineered columns of one row (train_models.py lines 233-239):
`errorBalanceOrg = newbalanceOrig + amount - oldbalanceOrg`,
`errorBalanceDest = oldbalanceDest + amount - newbalanceDest`, and the
label-encoded `type` column. -/
def rowAssoc (type_code : Int) (r : RawRow) : List (String × ℚ) :=
  [("type", (type_code : ℚ)),
   ("amount", r.amount),
   ("oldbalanceOrg", r.oldbalanceOrg),
   ("newbalanceOrig", r.newbalanceOrig),
   ("errorBalanceOrg", r.newbalanceOrig + r.amount - r.oldbalanceOrg),
   ("errorBalanceDest", r.oldbalanceDest + r.amount - r.newbalanceDest)]

/-- The feature part of one row of `df[FEATURE_COLUMNS + [TARGET_COLUMN]]`
(train_models.py line 242): column values in `FEATURE_COLUMNS` order. -/
def featureRow (type_code : Int) (r : RawRow) : List ℚ :=
  FEATURE_COLUMNS.filterMap fun c => (rowAssoc type_code r).lookup c

end train_models

/-- The raw training-schema view of a serving-time transaction input. -/
def toRaw (data : TransactionInput) : train_models.RawRow :=
  ⟨data.type, data.amount, data.oldbalanceOrg, data.newbalanceOrig,
   data.oldbalanceDest, data.newbalanceDest⟩

/-! ## Rule conditions and characterization of the heuristic engine -/

/-- Rule 1 guard (main.py line 158). -/
abbrev r1Cond (data : TransactionInput) : Prop := data.newbalanceOrig < 0

/-- Rule 2 guard (main.py lines 168-172). -/
abbrev r2Cond (data : TransactionInput) : Prop :=
  data.newbalanceOrig = 0 ∧ data.amount > 0 ∧ data.amount ≥ data.oldbalanceOrg

/-- Rule 3 guard (main.py line 182). -/
abbrev r3Cond (e : ℚ) : Prop := |e| > BALANCE_ERROR_EPSILON

/-- Rule 4 guard (main.py line 192). -/
abbrev r4Cond (data : TransactionInput) : Prop := data.amount > HIGH_VALUE_AMOUNT

/-- Rule 5 guard (main.py lines 202-204). -/
abbrev r5Cond (data : TransactionInput) : Prop :=
  data.oldbalanceOrg > 0 ∧ data.amount / data.oldbalanceOrg > 0.9

/-- A rule's contribution to the factor list: its factor exactly when the
rule triggered. -/
def triggered (c : Prop) [Decidable c] (f : RiskFactor) : List RiskFactor :=
  if c then [f] else []

/-! ## Concrete fixtures (used by witnesses and counterexamples) -/

/-- The lookup of the fitted `LabelEncoder` artifact: `fit_transform` over
the filtered training data assigns codes in sorted class order,
`CASH_OUT ↦ 0`, `TRANSFER ↦ 1`; every other label raises `ValueError`
(modelled as `none`). -/
def enc0 : String → Option Int := fun t =>
  if t = "CASH_OUT" then some 0 else if t = "TRANSFER" then some 1 else none

/-- Registry with every artifact present. -/
def allLoaded : ModelRegistry := ⟨true, some enc0, true⟩

/-- Registry where only the encoder artifact file was missing at startup. -/
def encoderMissing : ModelRegistry := ⟨true, none, true⟩

/-- Registry where the primary model and the encoder are present but the
secondary model file was missing at startup. -/
def primaryOnly : ModelRegistry := ⟨true, some enc0, false⟩

/-- Registry with no artifact loaded. -/
def noneLoaded : ModelRegistry := ⟨false, none, false⟩

/-- A constant-probability stand-in for the opaque model artifact. -/
def constModel (q : ℚ) : List ℚ → ℚ := fun _ => q

/-- Scenario A of the spec: the known fraud pattern (full transfer
drain), `errorBalanceOrg = 0`. -/
def scenarioA : TransactionInput := ⟨1, "TRANSFER", 50000, 50000, 0, 0, 50000⟩

/-- Scenario B of the spec: a benign payment, no rule fires. -/
def scenarioB : TransactionInput := ⟨1, "PAYMENT", 5000, 150000, 145000, 0, 5000⟩

/-- Scenario C of the spec: a negative sender post-balance. -/
def scenarioC : TransactionInput := ⟨1, "CASH_OUT", 100, 0, -100, 0, 0⟩

/-- A transaction on which only rule 5 triggers: `amount / oldbalanceOrg
= 0.95 > 0.9` while rules 1-4 are all quiet. -/
def onlyR5 : TransactionInput := ⟨1, "TRANSFER", 95, 100, 5, 0, 0⟩

/-- The heuristic probability is the maximum, over the four
probability-bearing rules, of each rule's floor when triggered (0 when
not). -/
theorem compute_heuristics_fst (data : TransactionInput) (e : ℚ) :
    (compute_heuristics data e).1 =
      max (max (max (if r1Cond data then (0.99 : ℚ) else 0)
                    (if r2Cond data then 0.95 else 0))
               (if r3Cond e then 0.85 else 0))
          (if r4Cond data then 0.70 else 0) := by
  by_cases h1 : r1Cond data <;> by_cases h2 : r2Cond data <;>
    by_cases h3 : r3Cond e <;> by_cases h4 : r4Cond data <;>
      simp only [compute_heuristics, r1Cond, r2Cond, r3Cond, r4Cond,
        h1, h2, h3, h4, if_true, if_false, if_pos, if_neg,
        not_false_iff] <;>
      norm_num [max_def]

/-- The heuristic factor list is the concatenation, in rule order
R1-R5, of each triggered rule's factor. -/
theorem compute_heuristics_snd (data : TransactionInput) (e : ℚ) :
    (compute_heuristics data e).2 =
      triggered (r1Cond data) r1Factor
        ++ triggered (r2Cond data) (r2Factor data)
        ++ triggered (r3Cond e) (r3Factor e)
        ++ triggered (r4Cond data) (r4Factor data)
        ++ triggered (r5Cond data)
             (r5Factor (data.amount / data.oldbalanceOrg)) := by
  simp only [compute_heuristics, triggered, r1Cond, r2Cond, r3Cond, r4Cond,
    r5Cond]
  by_cases h1 : data.newbalanceOrig < 0 <;>
    by_cases h2 : data.newbalanceOrig = 0 ∧ data.amount > 0 ∧
        data.amount ≥ data.oldbalanceOrg <;>
      by_cases h3 : |e| > BALANCE_ERROR_EPSILON <;>
        by_cases h4 : data.amount > HIGH_VALUE_AMOUNT <;>
          by_cases h5 : data.oldbalanceOrg > 0 <;>
            by_cases h6 : data.amount / data.oldbalanceOrg > 0.9 <;>
              simp [h1, h2, h3, h4, h5, h6]

/-- A nonzero heuristic probability forces a nonempty factor list: every
probability-bearing rule that fires also appends its factor. -/
theorem heuristics_pos_factors_ne_nil (data : TransactionInput) (e : ℚ)
    (h : (compute_heuristics data e).1 ≠ 0) :
    (compute_heuristics data e).2 ≠ [] := by
  rw [compute_heuristics_fst] at h
  rw [compute_heuristics_snd]
  by_cases h1 : r1Cond data <;> by_cases h2 : r2Cond data <;>
    by_cases h3 : r3Cond e <;> by_cases h4 : r4Cond data <;>
      simp_all [triggered]

/-- A successful primary prediction is exactly `primary_result`. -/
theorem predict_primary_ok (models : ModelRegistry) (ml_model : List ℚ → ℚ)
    (data : TransactionInput) (out : PredictionOutput)
    (h : predict_primary models ml_model data = .ok out) :
    out = primary_result models ml_model data := by
  unfold predict_primary at h
  cases hb : models.primary
  · rw [hb] at h; simp at h
  · rw [hb] at h; simpa using h.symm

/-- A successful secondary prediction is exactly the record built at
main.py lines 397-403. -/
theorem predict_secondary_ok (models : ModelRegistry) (pred : Bool)
    (prob dist : ℚ) (out : PredictionOutput)
    (h : predict_secondary models pred prob dist = .ok out) :
    out = ⟨prob, pred, risk_level_of prob,
           "Distance to merchant: " ++ fmtFixed false 2 dist ++ " km",
           if dist > 100 then
             [⟨"Distance anomaly: " ++ fmtFixed false 1 dist
                ++ " km from merchant", "warning"⟩]
           else []⟩ := by
  unfold predict_secondary at h
  cases hb : models.secondary_rf
  · rw [hb] at h; simp at h
  · rw [hb] at h; simpa using h.symm

/-- Prepending one rule's contribution preserves sublist-hood of the
canonical rule order. -/
theorem triggered_sublist {l l' : List RiskFactor} (c : Prop) [Decidable c]
    (f : RiskFactor) (h : l.Sublist l') :
    (triggered c f ++ l).Sublist (f :: l') := by
  unfold triggered
  split
  · exact List.Sublist.cons₂ f h
  · exact List.Sublist.cons f h

/-- A single rule's contribution is a sublist of its singleton. -/
theorem triggered_self_sublist (c : Prop) [Decidable c] (f : RiskFactor) :
    (triggered c f).Sublist [f] := by
  unfold triggered
  split
  · exact List.Sublist.refl _
  · exact List.nil_sublist _

/-! ## The claims -/

/-- C1: for every model probability and heuristic probability, the
ensemble's final probability equals exactly
`max(model_probability, heuristic_probability)`: it is never less than
either input and never more than their maximum. -/
theorem C1_final_probability_is_exact_max (models : ModelRegistry)
    (ml_model : List ℚ → ℚ) (data : TransactionInput)
    (out : PredictionOutput)
    (h : predict_primary models ml_model data = .ok out) :
    out.probability = max (ml_prob models ml_model data) (h_prob data) ∧
    ml_prob models ml_model data ≤ out.probability ∧
    h_prob data ≤ out.probability ∧
    out.probability ≤ max (ml_prob models ml_model data) (h_prob data) := by
  have hout := predict_primary_ok models ml_model data out h
  subst hout
  exact ⟨rfl, le_max_left _ _, le_max_right _ _, le_refl _⟩

/-- Witness for C1 at Scenario B with a constant model probability 0.3. -/
theorem C1_witness :
    (primary_result allLoaded (constModel 0.3) scenarioB).probability
      = max (ml_prob allLoaded (constModel 0.3) scenarioB)
            (h_prob scenarioB) :=
  (C1_final_probability_is_exact_max allLoaded (constModel 0.3) scenarioB
    (primary_result allLoaded (constModel 0.3) scenarioB) rfl).1

/-- C2: `is_fraud` holds iff `final_probability > 0.5`; risk level is
`High` when `final_probability > 0.8`, `Medium` when `> 0.4` (and not
`> 0.8`), `Low` otherwise; the thresholds are the fixed constants 0.8 and
0.4. -/
theorem C2_verdict_and_risk_tiering (models : ModelRegistry)
    (ml_model : List ℚ → ℚ) (data : TransactionInput)
    (out : PredictionOutput)
    (h : predict_primary models ml_model data = .ok out) :
    (out.is_fraud = true ↔ out.probability > 0.5) ∧
    (out.probability > HIGH_RISK_THRESHOLD → out.risk_level = "High") ∧
    (out.probability > MEDIUM_RISK_THRESHOLD →
      ¬ out.probability > HIGH_RISK_THRESHOLD → out.risk_level = "Medium") ∧
    (¬ out.probability > MEDIUM_RISK_THRESHOLD → out.risk_level = "Low") ∧
    HIGH_RISK_THRESHOLD = 0.8 ∧ MEDIUM_RISK_THRESHOLD = 0.4 := by
  have hout := predict_primary_ok models ml_model data out h
  subst hout
  refine ⟨?_, ?_, ?_, ?_, rfl, rfl⟩
  · exact decide_eq_true_iff
  · intro hH
    show risk_level_of (final_prob models ml_model data) = "High"
    rw [risk_level_of, if_pos (show final_prob models ml_model data
      > HIGH_RISK_THRESHOLD from hH)]
  · intro hM hH
    show risk_level_of (final_prob models ml_model data) = "Medium"
    rw [risk_level_of, if_neg (show ¬ final_prob models ml_model data
        > HIGH_RISK_THRESHOLD from hH),
      if_pos (show final_prob models ml_model data
        > MEDIUM_RISK_THRESHOLD from hM)]
  · intro hM
    have hH : ¬ (primary_result models ml_model data).probability
        > HIGH_RISK_THRESHOLD := by
      intro hH
      exact hM (lt_trans
        (show MEDIUM_RISK_THRESHOLD < HIGH_RISK_THRESHOLD by
          norm_num [MEDIUM_RISK_THRESHOLD, HIGH_RISK_THRESHOLD]) hH)
    show risk_level_of (final_prob models ml_model data) = "Low"
    rw [risk_level_of, if_neg (show ¬ final_prob models ml_model data
        > HIGH_RISK_THRESHOLD from hH),
      if_neg (show ¬ final_prob models ml_model data
        > MEDIUM_RISK_THRESHOLD from hM)]

/-- The heuristic probability of Scenario A is 0.95: only R2 fires. -/
theorem h_prob_scenarioA : h_prob scenarioA = 0.95 := by
  rw [h_prob, compute_heuristics_fst]
  rw [if_neg (by norm_num [r1Cond, scenarioA]),
    if_pos (by norm_num [r2Cond, scenarioA]),
    if_neg (by norm_num [r3Cond, error_balance_org, scenarioA,
      BALANCE_ERROR_EPSILON]),
    if_neg (by norm_num [r4Cond, scenarioA, HIGH_VALUE_AMOUNT])]
  norm_num [max_def]

/-- The fused probability of Scenario A under a 0.3 model score is 0.95. -/
theorem primaryA_prob :
    (primary_result allLoaded (constModel 0.3) scenarioA).probability
      = 0.95 := by
  show final_prob allLoaded (constModel 0.3) scenarioA = 0.95
  rw [final_prob, show ml_prob allLoaded (constModel 0.3) scenarioA = 0.3
    from rfl, h_prob_scenarioA]
  norm_num [max_def]

/-- Witness for C2 at Scenario A (heuristic 0.95, model 0.3): fraudulent
and `High`. -/
theorem C2_witness :
    (primary_result allLoaded (constModel 0.3) scenarioA).is_fraud = true ∧
    (primary_result allLoaded (constModel 0.3) scenarioA).risk_level
      = "High" := by
  refine ⟨?_, ?_⟩
  · exact (C2_verdict_and_risk_tiering allLoaded (constModel 0.3) scenarioA
      (primary_result allLoaded (constModel 0.3) scenarioA) rfl).1.mpr
      (by rw [primaryA_prob]; norm_num)
  · exact (C2_verdict_and_risk_tiering allLoaded (constModel 0.3) scenarioA
      (primary_result allLoaded (constModel 0.3) scenarioA) rfl).2.1
      (by rw [primaryA_prob]; norm_num [HIGH_RISK_THRESHOLD])

/-- C3: the heuristic engine evaluates all five rules and returns the
maximum floor over the triggered rules per the rule table
(R1 0.99 danger, R2 0.95 danger, R3 0.85 warning, R4 0.70 warning);
R5 appends a warning factor but contributes no probability, so if only
R5 triggers the returned probability is 0. -/
theorem C3_rule_table_max_no_short_circuit (data : TransactionInput)
    (e : ℚ) :
    (compute_heuristics data e).1 =
      max (max (max (if r1Cond data then (0.99 : ℚ) else 0)
                    (if r2Cond data then 0.95 else 0))
               (if r3Cond e then 0.85 else 0))
          (if r4Cond data then 0.70 else 0) ∧
    (compute_heuristics data e).2 =
      triggered (r1Cond data) r1Factor
        ++ triggered (r2Cond data) (r2Factor data)
        ++ triggered (r3Cond e) (r3Factor e)
        ++ triggered (r4Cond data) (r4Factor data)
        ++ triggered (r5Cond data)
             (r5Factor (data.amount / data.oldbalanceOrg)) ∧
    r1Factor.severity = "danger" ∧ (r2Factor data).severity = "danger" ∧
    (r3Factor e).severity = "warning" ∧
    (r4Factor data).severity = "warning" ∧
    (r5Factor (data.amount / data.oldbalanceOrg)).severity = "warning" ∧
    (¬ r1Cond data → ¬ r2Cond data → ¬ r3Cond e → ¬ r4Cond data →
      (compute_heuristics data e).1 = 0) := by
  refine ⟨compute_heuristics_fst data e, compute_heuristics_snd data e,
    rfl, rfl, rfl, rfl, rfl, ?_⟩
  intro n1 n2 n3 n4
  rw [compute_heuristics_fst]
  simp [n1, n2, n3, n4]

/-- Witness for C3 at a transaction where only R5 triggers: the
probability is 0 while the factor list still carries the R5 warning. -/
theorem C3_witness :
    (compute_heuristics onlyR5 0).1 = 0 :=
  (C3_rule_table_max_no_short_circuit onlyR5 0).2.2.2.2.2.2.2
    (by norm_num [r1Cond, onlyR5])
    (by norm_num [r2Cond, onlyR5])
    (by norm_num [r3Cond, BALANCE_ERROR_EPSILON])
    (by norm_num [r4Cond, onlyR5, HIGH_VALUE_AMOUNT])

/-- C4: a missing model artifact is reported as 503 for that capability
only — but a missing *encoder* artifact is NOT: the `except (ValueError,
KeyError)` of main.py lines 242-246 also swallows the `KeyError` raised by
`_models["encoder"]` when the encoder artifact is absent, silently
substitutes the default code 0, and serves the request anyway, although
the startup log (main.py line 94) announces "endpoint will return 503"
for every missing artifact, the encoder included. -/
theorem C4_artifact_missing_evidence :
    predict_primary noneLoaded (constModel 0.3) scenarioB = .error 503 ∧
    predict_secondary noneLoaded true 0.9 50 = .error 503 ∧
    predict_secondary primaryOnly true 0.9 50 = .error 503 ∧
    predict_primary primaryOnly (constModel 0.3) scenarioB =
      .ok (primary_result primaryOnly (constModel 0.3) scenarioB) ∧
    encodeType encoderMissing scenarioB.type = 0 ∧
    predict_primary encoderMissing (constModel 0.3) scenarioB =
      .ok (primary_result encoderMissing (constModel 0.3) scenarioB) :=
  ⟨rfl, rfl, rfl, rfl, rfl, rfl⟩

/-- Counterexample to C5: with the secondary model loaded, a predicted
label `1` and model probability 0.1 at distance 0, the secondary endpoint
returns `is_fraud = true` although `0.1 > 0.5` is false, and an empty
factor list — contradicting the claimed `is_fraud = final_probability >
0.5` and the never-factor-empty guarantee. -/
theorem C5_counterexample :
    (predict_secondary allLoaded true 0.1 0).toOption.map
        (fun o => (o.is_fraud, o.probability, o.risk_factors))
      = some (true, 0.1, []) ∧
    ¬ ((0.1 : ℚ) > 0.5) := by
  refine ⟨?_, by norm_num⟩
  have h100 : ¬ ((0 : ℚ) > 100) := by norm_num
  simp [predict_secondary, allLoaded, h100, Except.toOption]

/-- C5 amended: the secondary engine reuses the primary engine's fixed
risk-tier thresholds on its model probability, but performs no fusion
(the returned probability is the raw model probability), takes `is_fraud`
from the classifier's own predicted label rather than from
`final_probability > 0.5`, always emits a fixed distance explanation
instead of the primary explanation-assembly rules, and returns an empty
factor list whenever the distance is not above 100 km. -/
theorem C5_secondary_actual_contract (models : ModelRegistry) (pred : Bool)
    (prob dist : ℚ) (out : PredictionOutput)
    (h : predict_secondary models pred prob dist = .ok out) :
    out.probability = prob ∧
    out.is_fraud = pred ∧
    out.risk_level = risk_level_of prob ∧
    out.explanation
      = "Distance to merchant: " ++ fmtFixed false 2 dist ++ " km" ∧
    (¬ dist > 100 → out.risk_factors = []) ∧
    (dist > 100 → out.risk_factors =
      [⟨"Distance anomaly: " ++ fmtFixed false 1 dist ++ " km from merchant",
        "warning"⟩]) := by
  have hout := predict_secondary_ok models pred prob dist out h
  subst hout
  exact ⟨rfl, rfl, rfl, rfl, fun hd => if_neg hd, fun hd => if_pos hd⟩

/-- Witness for the amended C5 at a far-away merchant: the tier comes from
`risk_level_of` on the raw probability and the lone distance factor is
present. -/
theorem C5_witness :
    (predict_secondary allLoaded false 0.9 150).toOption.map
        PredictionOutput.risk_level = some (risk_level_of 0.9) := by
  rcases hE : predict_secondary allLoaded false 0.9 150 with e | out
  · simp [predict_secondary, allLoaded] at hE
  · have h := C5_secondary_actual_contract allLoaded false 0.9 150 out hE
    simp [Except.toOption, h.2.2.1]

/-- C6: a negative sender post-balance always yields a heuristic
probability of at least 0.99 and a danger-severity factor, independent of
every other field and rule. -/
theorem C6_overdraft_rule (data : TransactionInput) (e : ℚ)
    (h : data.newbalanceOrig < 0) :
    0.99 ≤ (compute_heuristics data e).1 ∧
    r1Factor ∈ (compute_heuristics data e).2 ∧
    r1Factor.severity = "danger" := by
  refine ⟨?_, ?_, rfl⟩
  · rw [compute_heuristics_fst]
    refine le_max_of_le_left (le_max_of_le_left (le_max_of_le_left ?_))
    rw [if_pos h]
  · rw [compute_heuristics_snd]
    simp only [triggered]
    rw [if_pos h]
    simp

/-- Witness for C6 at Scenario C (post-balance −100). -/
theorem C6_witness :
    0.99 ≤ (compute_heuristics scenarioC (error_balance_org scenarioC)).1 ∧
    r1Factor ∈ (compute_heuristics scenarioC
      (error_balance_org scenarioC)).2 :=
  ⟨(C6_overdraft_rule scenarioC (error_balance_org scenarioC)
      (by norm_num [scenarioC])).1,
   (C6_overdraft_rule scenarioC (error_balance_org scenarioC)
      (by norm_num [scenarioC])).2.1⟩

/-- C7: if `ml_prob > 0.5` the synthetic model factor is the first factor
(danger above 0.8, warning otherwise); a fraud verdict's explanation
concatenates the first three factor descriptions in assembly order; a
legitimate verdict with no factors gets the single default info factor;
the returned factor list is never empty. -/
theorem C7_explanation_assembly (models : ModelRegistry)
    (ml_model : List ℚ → ℚ) (data : TransactionInput)
    (out : PredictionOutput)
    (h : predict_primary models ml_model data = .ok out) :
    (ml_prob models ml_model data > 0.5 →
      out.risk_factors.head?
        = some (mlFactor (ml_prob models ml_model data)) ∧
      (mlFactor (ml_prob models ml_model data)).severity
        = if ml_prob models ml_model data > 0.8 then "danger"
          else "warning") ∧
    (out.is_fraud = true →
      out.explanation = "Risk Factors: "
        ++ String.intercalate "; "
            ((out.risk_factors.take 3).map RiskFactor.factor) ++ ".") ∧
    (out.is_fraud = false → assembled_factors models ml_model data = [] →
      out.risk_factors = [allChecksPassedFactor]) ∧
    out.risk_factors ≠ [] := by
  have hout := predict_primary_ok models ml_model data out h
  subst hout
  have hrf : (primary_result models ml_model data).risk_factors
      = if decide (final_prob models ml_model data > 0.5)
        then assembled_factors models ml_model data
        else if (assembled_factors models ml_model data).isEmpty
          then assembled_factors models ml_model data
            ++ [allChecksPassedFactor]
          else assembled_factors models ml_model data := rfl
  have hex : (primary_result models ml_model data).explanation
      = if decide (final_prob models ml_model data > 0.5)
        then "Risk Factors: " ++ String.intercalate "; "
          (((assembled_factors models ml_model data).take 3).map
            RiskFactor.factor) ++ "."
        else "Transaction parameters are consistent with legitimate behavior."
      := rfl
  have hif : (primary_result models ml_model data).is_fraud
      = decide (final_prob models ml_model data > 0.5) := rfl
  refine ⟨?_, ?_, ?_, ?_⟩
  · intro hm
    have hfp : final_prob models ml_model data > 0.5 :=
      lt_of_lt_of_le hm (le_max_left _ _)
    have hfs : assembled_factors models ml_model data
        = mlFactor (ml_prob models ml_model data) :: heuristic_factors data :=
      if_pos hm
    refine ⟨?_, rfl⟩
    simp [hrf, decide_eq_true hfp, hfs]
  · intro hfr
    rw [hif] at hfr
    simp [hex, hrf, hfr]
  · intro hfr hempty
    rw [hif] at hfr
    simp [hrf, hfr, hempty]
  · rw [hrf]
    by_cases hfp : final_prob models ml_model data > 0.5
    · rw [decide_eq_true hfp]
      by_cases hm : ml_prob models ml_model data > 0.5
      · have hfs : assembled_factors models ml_model data
            = mlFactor (ml_prob models ml_model data)
              :: heuristic_factors data := if_pos hm
        simp [hfs]
      · have hfs : assembled_factors models ml_model data
            = heuristic_factors data := if_neg hm
        have hhp : h_prob data > 0.5 := by
          rcases lt_max_iff.mp hfp with h' | h'
          · exact absurd h' hm
          · exact h'
        have hne : (compute_heuristics data (error_balance_org data)).1
            ≠ 0 := by
          have h05 : (0 : ℚ) < 0.5 := by norm_num
          exact ne_of_gt (lt_trans h05 hhp)
        have hnn := heuristics_pos_factors_ne_nil data
          (error_balance_org data) hne
        simpa [hfs, heuristic_factors] using hnn
    · rw [decide_eq_false hfp]
      by_cases he : (assembled_factors models ml_model data).isEmpty
      · simp [he]
      · simp only [Bool.false_eq_true, if_false, he]
        intro hcon
        exact he (by simp [hcon])

/-- Witness for C7 with model probability 0.9 on Scenario B: the synthetic
model factor leads and the factor list is nonempty. -/
theorem C7_witness :
    (primary_result allLoaded (constModel 0.9) scenarioB).risk_factors.head?
      = some (mlFactor (ml_prob allLoaded (constModel 0.9) scenarioB)) ∧
    (primary_result allLoaded (constModel 0.9) scenarioB).risk_factors
      ≠ [] := by
  have happ := C7_explanation_assembly allLoaded (constModel 0.9) scenarioB
    (primary_result allLoaded (constModel 0.9) scenarioB) rfl
  refine ⟨(happ.1 ?_).1, happ.2.2.2⟩
  show (0.9 : ℚ) > 0.5
  norm_num

/-- C8: a category label absent from the fitted encoding yields the fixed
default code 0, never an error, and repeated calls with the same unseen
label on the same encoder artifact give the same code. -/
theorem C8_unseen_category_default_code (models models' : ModelRegistry)
    (enc : String → Option Int) (t : String)
    (h : models.encoder = some enc) (h' : models'.encoder = some enc)
    (hu : enc t = none) :
    encodeType models t = 0 ∧
    encodeType models' t = encodeType models t := by
  constructor <;> simp [encodeType, h, h', hu]

/-- Witness for C8: `PAYMENT` is not a fitted class of the encoder, so
both calls return 0. -/
theorem C8_witness :
    encodeType allLoaded "PAYMENT" = 0 ∧
    encodeType primaryOnly "PAYMENT" = encodeType allLoaded "PAYMENT" :=
  C8_unseen_category_default_code allLoaded primaryOnly enc0 "PAYMENT"
    rfl rfl rfl

/-- C9: the serving-time feature computation equals the training-time
transform: the same error-balance formulas, the same fixed column order,
and the same assembled vector. -/
theorem C9_serving_matches_training (data : TransactionInput) (c : Int) :
    error_balance_org data
      = data.newbalanceOrig + data.amount - data.oldbalanceOrg ∧
    error_balance_dest data
      = data.oldbalanceDest + data.amount - data.newbalanceDest ∧
    FEATURE_COLUMNS = train_models.FEATURE_COLUMNS ∧
    features c data = train_models.featureRow c (toRaw data) ∧
    features c data = [(c : ℚ), data.amount, data.oldbalanceOrg,
      data.newbalanceOrig, error_balance_org data,
      error_balance_dest data] :=
  ⟨rfl, rfl, rfl, rfl, rfl⟩

/-- C10 (implicit): the heuristic probability is always one of
{0, 0.70, 0.85, 0.95, 0.99}, and the factor list has at most five
entries, appearing in the fixed rule order R1-R5. -/
theorem C10_heuristic_invariants (data : TransactionInput) (e : ℚ) :
    (compute_heuristics data e).1
      ∈ ([0, 0.70, 0.85, 0.95, 0.99] : List ℚ) ∧
    (compute_heuristics data e).2.length ≤ 5 ∧
    (compute_heuristics data e).2.Sublist
      [r1Factor, r2Factor data, r3Factor e, r4Factor data,
       r5Factor (data.amount / data.oldbalanceOrg)] := by
  refine ⟨?_, ?_, ?_⟩
  · rw [compute_heuristics_fst]
    split_ifs <;> norm_num [max_def, List.mem_cons]
  · rw [compute_heuristics_snd]
    simp only [triggered]
    split_ifs <;> simp
  · rw [compute_heuristics_snd]
    simp only [List.append_assoc]
    exact triggered_sublist _ _ (triggered_sublist _ _ (triggered_sublist _ _
      (triggered_sublist _ _ (triggered_self_sublist _ _))))

end FraudSim
